import Mathlib

/-!
Shallow embedding of the feature-engineering core of the
Automatic-Modulation-Classification notebook
(src/data_feature-engineering.ipynb).

The notebook turns a batch of raw I/Q samples, a numeric array of shape
(N, 2, L), into a batch of 32 real-valued features per sample:

* inside form_features it builds, per sample, the complex sequence
  z[k] = X[n,0,k] + i·X[n,1,k], then computes 16 statistics (f1..f16);
* inside form_next16_features it rebuilds the same complex sequence,
  forms the cyclic lag-8 product w[k] = z[k]·z[(k+8) mod L], and computes
  16 analogous statistics (f17..f32);
* every statistic is reduced by a final absolute value (complex magnitude
  for the complex-valued ones) and the two 16-column blocks are
  concatenated into an N×32 matrix.

Floating-point numbers are modelled by exact reals (ℝ/ℂ); numpy angle is
Complex.arg (atan2 of imaginary over real part, principal value in
(−π, π], angle 0 for the zero complex number, matching numpy.angle).
Failures (numpy IndexError when a channel index is out of bounds,
ValueError from np.vstack on an empty list) are modelled with Except.
-/

noncomputable section

namespace AMC

/-- A raw sample batch: a 3-dimensional real array of shape
(n_samples, rows, vec_len), exactly the three shape components the
notebook reads via X.shape[0], X.shape[1], X.shape[2]. The entries are a
total function; only indices below the bounds are ever read. -/
structure Batch where
  n_samples : ℕ
  rows : ℕ
  vec_len : ℕ
  data : ℕ → ℕ → ℕ → ℝ

/-- The complex-sequence construction inside form_features: per sample n,
the list of complex numbers with real part X[n,0,k] and imaginary part
X[n,1,k] for k = 0..vec_len−1 (the comprehension over
complex(X[samp_num,0,column], X[samp_num,1,column]) after the reshape to
(n_samples, vec_len)). -/
def X_complex_lag0 (X : Batch) (n : ℕ) : List ℂ :=
  (List.range X.vec_len).map fun k => ⟨X.data n 0 k, X.data n 1 k⟩

/-- The complex-sequence construction duplicated inside
form_next16_features: textually the same comprehension as in
form_features. -/
def X_complex_lag8path (X : Batch) (n : ℕ) : List ℂ :=
  (List.range X.vec_len).map fun k => ⟨X.data n 0 k, X.data n 1 k⟩

/-- The lagged-product former (the X_complex_8lag loop of
form_next16_features, with the hard-coded 8 generalised to a lag
parameter T): entry k is z[k] · z[(k+T) mod L], the index reduced modulo
the sequence length before use. -/
def X_complex_8lag (T : ℕ) (z : List ℂ) : List ℂ :=
  (List.range z.length).map fun k => z.getD k 0 * z.getD ((k + T) % z.length) 0

/-- np.mean over a complex list: sum divided by length. -/
def cmean (l : List ℂ) : ℂ := l.sum / (l.length : ℂ)

/-- np.mean over a real list: sum divided by length. -/
def rmean (l : List ℝ) : ℝ := l.sum / (l.length : ℝ)

/-- Feature 1: np.mean(X_complex). -/
def f1 (z : List ℂ) : ℂ := cmean z

/-- Feature 2: np.mean(abs(X_complex)). -/
def f2 (z : List ℂ) : ℝ := rmean (z.map Complex.abs)

/-- Feature 3: np.mean(X_complex_angl). -/
def f3 (z : List ℂ) : ℝ := rmean (z.map Complex.arg)

/-- Feature 4: np.mean(abs(X_complex_angl)). -/
def f4 (z : List ℂ) : ℝ := rmean ((z.map Complex.arg).map fun a => |a|)

/-- Feature 5: np.mean(X_complex_sqr), where X_complex_sqr is the
elementwise square of X_complex. -/
def f5 (z : List ℂ) : ℂ := cmean (z.map fun w => w ^ 2)

/-- Feature 6: np.mean(np.square(abs(X_complex))). -/
def f6 (z : List ℂ) : ℝ := rmean ((z.map Complex.abs).map fun r => r ^ 2)

/-- Feature 7: np.mean(np.square(X_complex_angl)). -/
def f7 (z : List ℂ) : ℝ := rmean ((z.map Complex.arg).map fun a => a ^ 2)

/-- Feature 8: np.mean(np.square(abs(X_complex_angl))). -/
def f8 (z : List ℂ) : ℝ :=
  rmean (((z.map Complex.arg).map fun a => |a|).map fun a => a ^ 2)

/-- Feature 9: np.mean(X_complex_sqr) − (1/vec_len²)·np.square(np.sum(X_complex)). -/
def f9 (z : List ℂ) : ℂ :=
  cmean (z.map fun w => w ^ 2) - 1 / (z.length : ℂ) ^ 2 * z.sum ^ 2

/-- Feature 10: np.mean(np.square(abs(X_complex))) −
(1/vec_len²)·np.square(np.sum(abs(X_complex))). -/
def f10 (z : List ℂ) : ℝ :=
  rmean ((z.map Complex.abs).map fun r => r ^ 2) -
    1 / (z.length : ℝ) ^ 2 * (z.map Complex.abs).sum ^ 2

/-- Feature 11: np.mean(np.square(X_complex_angl)) −
(1/vec_len²)·np.square(np.sum(X_complex_angl)). -/
def f11 (z : List ℂ) : ℝ :=
  rmean ((z.map Complex.arg).map fun a => a ^ 2) -
    1 / (z.length : ℝ) ^ 2 * (z.map Complex.arg).sum ^ 2

/-- Feature 12: np.mean(np.square(abs(X_complex_angl))) −
(1/vec_len²)·np.square(np.sum(abs(X_complex_angl))). -/
def f12 (z : List ℂ) : ℝ :=
  rmean (((z.map Complex.arg).map fun a => |a|).map fun a => a ^ 2) -
    1 / (z.length : ℝ) ^ 2 * ((z.map Complex.arg).map fun a => |a|).sum ^ 2

/-- Feature 13: np.mean(np.power(X_complex,4)) −
(1/vec_len²)·(np.sum(X_complex_sqr))². -/
def f13 (z : List ℂ) : ℂ :=
  cmean (z.map fun w => w ^ 4) - 1 / (z.length : ℂ) ^ 2 * (z.map fun w => w ^ 2).sum ^ 2

/-- Feature 14: np.mean(np.power(abs(X_complex),4)) −
(1/vec_len²)·(np.sum(np.square(abs(X_complex))))². -/
def f14 (z : List ℂ) : ℝ :=
  rmean ((z.map Complex.abs).map fun r => r ^ 4) -
    1 / (z.length : ℝ) ^ 2 * ((z.map Complex.abs).map fun r => r ^ 2).sum ^ 2

/-- Feature 15: np.mean(np.power(X_complex_angl,4)) −
(1/vec_len²)·(np.sum(np.square(X_complex_angl)))². -/
def f15 (z : List ℂ) : ℝ :=
  rmean ((z.map Complex.arg).map fun a => a ^ 4) -
    1 / (z.length : ℝ) ^ 2 * ((z.map Complex.arg).map fun a => a ^ 2).sum ^ 2

/-- Feature 16: np.mean(np.power(abs(X_complex_angl),4)) −
(1/vec_len²)·(np.sum(np.square(abs(X_complex_angl))))². -/
def f16 (z : List ℂ) : ℝ :=
  rmean (((z.map Complex.arg).map fun a => |a|).map fun a => a ^ 4) -
    1 / (z.length : ℝ) ^ 2 *
      (((z.map Complex.arg).map fun a => |a|).map fun a => a ^ 2).sum ^ 2

/-- One row of the lag-0 feature block: the 16 features f1..f16 in the
dictionary's insertion order, each reduced by the final elementwise
absolute value abs(np.hstack(...)) — complex magnitude for f1, f5, f9,
f13 (the hstack upcasts all columns to complex, so the plain real columns
get their real absolute value). -/
def features16_lag0 (z : List ℂ) : List ℝ :=
  [Complex.abs (f1 z), |f2 z|, |f3 z|, |f4 z|,
   Complex.abs (f5 z), |f6 z|, |f7 z|, |f8 z|,
   Complex.abs (f9 z), |f10 z|, |f11 z|, |f12 z|,
   Complex.abs (f13 z), |f14 z|, |f15 z|, |f16 z|]

/-- Feature 17: np.mean(X_complex_8lag). -/
def f17 (w : List ℂ) : ℂ := cmean w

/-- Feature 18: np.mean(abs(X_complex_8lag)). -/
def f18 (w : List ℂ) : ℝ := rmean (w.map Complex.abs)

/-- Feature 19: np.mean(X_complex8_angl). -/
def f19 (w : List ℂ) : ℝ := rmean (w.map Complex.arg)

/-- Feature 20: np.mean(abs(X_complex8_angl)). -/
def f20 (w : List ℂ) : ℝ := rmean ((w.map Complex.arg).map fun a => |a|)

/-- Feature 21: np.mean(X_complex8_sqr). -/
def f21 (w : List ℂ) : ℂ := cmean (w.map fun v => v ^ 2)

/-- Feature 22: np.mean(np.square(abs(X_complex_8lag))). -/
def f22 (w : List ℂ) : ℝ := rmean ((w.map Complex.abs).map fun r => r ^ 2)

/-- Feature 23: np.mean(np.square(X_complex8_angl)). -/
def f23 (w : List ℂ) : ℝ := rmean ((w.map Complex.arg).map fun a => a ^ 2)

/-- Feature 24: np.mean(np.square(abs(X_complex8_angl))). -/
def f24 (w : List ℂ) : ℝ :=
  rmean (((w.map Complex.arg).map fun a => |a|).map fun a => a ^ 2)

/-- Feature 25: np.mean(X_complex8_sqr) −
(1/vec_len²)·np.square(np.sum(X_complex_8lag)). -/
def f25 (w : List ℂ) : ℂ :=
  cmean (w.map fun v => v ^ 2) - 1 / (w.length : ℂ) ^ 2 * w.sum ^ 2

/-- Feature 26: np.mean(np.square(abs(X_complex_8lag))) −
(1/vec_len²)·np.square(np.sum(abs(X_complex_8lag))). -/
def f26 (w : List ℂ) : ℝ :=
  rmean ((w.map Complex.abs).map fun r => r ^ 2) -
    1 / (w.length : ℝ) ^ 2 * (w.map Complex.abs).sum ^ 2

/-- Feature 27: np.mean(np.square(X_complex8_angl)) −
(1/vec_len²)·np.square(np.sum(X_complex8_angl)). -/
def f27 (w : List ℂ) : ℝ :=
  rmean ((w.map Complex.arg).map fun a => a ^ 2) -
    1 / (w.length : ℝ) ^ 2 * (w.map Complex.arg).sum ^ 2

/-- Feature 28: np.mean(np.square(abs(X_complex8_angl))) −
(1/vec_len²)·np.square(np.sum(abs(X_complex8_angl))). -/
def f28 (w : List ℂ) : ℝ :=
  rmean (((w.map Complex.arg).map fun a => |a|).map fun a => a ^ 2) -
    1 / (w.length : ℝ) ^ 2 * ((w.map Complex.arg).map fun a => |a|).sum ^ 2

/-- Feature 29: np.mean(np.power(X_complex_8lag,4)) −
(1/vec_len²)·(np.sum(X_complex8_sqr))². -/
def f29 (w : List ℂ) : ℂ :=
  cmean (w.map fun v => v ^ 4) - 1 / (w.length : ℂ) ^ 2 * (w.map fun v => v ^ 2).sum ^ 2

/-- Feature 30: np.mean(np.power(abs(X_complex_8lag),4)) −
(1/vec_len²)·(np.sum(np.square(abs(X_complex_8lag))))². -/
def f30 (w : List ℂ) : ℝ :=
  rmean ((w.map Complex.abs).map fun r => r ^ 4) -
    1 / (w.length : ℝ) ^ 2 * ((w.map Complex.abs).map fun r => r ^ 2).sum ^ 2

/-- Feature 31: (1/vec_len)·np.sum(np.power(X_complex8_angl,4)) −
(1/vec_len²)·(np.sum(np.square(X_complex8_angl)))² — written in the
notebook with an explicit 1/vec_len factor instead of np.mean. -/
def f31 (w : List ℂ) : ℝ :=
  1 / (w.length : ℝ) * ((w.map Complex.arg).map fun a => a ^ 4).sum -
    1 / (w.length : ℝ) ^ 2 * ((w.map Complex.arg).map fun a => a ^ 2).sum ^ 2

/-- Feature 32: np.mean(np.power(abs(X_complex8_angl),4)) −
(1/vec_len²)·(np.sum(np.square(abs(X_complex8_angl))))². -/
def f32 (w : List ℂ) : ℝ :=
  rmean (((w.map Complex.arg).map fun a => |a|).map fun a => a ^ 4) -
    1 / (w.length : ℝ) ^ 2 *
      (((w.map Complex.arg).map fun a => |a|).map fun a => a ^ 2).sum ^ 2

/-- One row of the lag-8 feature block: f17..f32 in insertion order, each
reduced by the final elementwise absolute value. -/
def features16_lag8 (w : List ℂ) : List ℝ :=
  [Complex.abs (f17 w), |f18 w|, |f19 w|, |f20 w|,
   Complex.abs (f21 w), |f22 w|, |f23 w|, |f24 w|,
   Complex.abs (f25 w), |f26 w|, |f27 w|, |f28 w|,
   Complex.abs (f29 w), |f30 w|, |f31 w|, |f32 w|]

/-- form_features: the lag-0 extractor. If n_samples = 0 or vec_len = 0
the complex-number comprehension is empty and np.vstack raises a
ValueError; otherwise, if the batch has fewer than 2 channels, reading
X[samp_num,1,column] raises an IndexError. Otherwise the result is one
row of 16 absolute statistics per sample, computed on the raw complex
sequence. -/
def form_features (X : Batch) : Except String (List (List ℝ)) :=
  if X.n_samples = 0 ∨ X.vec_len = 0 then
    Except.error "need at least one array to concatenate"
  else if X.rows < 2 then
    Except.error "index 1 is out of bounds for axis 1"
  else
    Except.ok ((List.range X.n_samples).map fun n => features16_lag0 (X_complex_lag0 X n))

/-- form_next16_features: the lag-8 extractor. Same failure conditions as
form_features; otherwise each sample's row is computed on the cyclic
lag-8 product of its raw complex sequence. -/
def form_next16_features (X : Batch) : Except String (List (List ℝ)) :=
  if X.n_samples = 0 ∨ X.vec_len = 0 then
    Except.error "need at least one array to concatenate"
  else if X.rows < 2 then
    Except.error "index 1 is out of bounds for axis 1"
  else
    Except.ok ((List.range X.n_samples).map fun n =>
      features16_lag8 (X_complex_8lag 8 (X_complex_lag8path X n)))

/-- The feature-vector assembler, np.concatenate((X_16, X_next16),
axis=1): rows of the lag-0 block extended by the rows of the lag-8
block (the notebook's X_32_train / X_32test line). -/
def X_32 (X : Batch) : Except String (List (List ℝ)) :=
  match form_features X, form_next16_features X with
  | Except.ok a, Except.ok b => Except.ok (List.zipWith (fun r s => r ++ s) a b)
  | Except.error e, _ => Except.error e
  | _, Except.error e => Except.error e

/-- The 16 statistics of the spec's section 4.3 table, in the table's
fixed order 1..16, each reduced by the final absolute value (complex
magnitude for statistics 1, 5, 9, 13), with n the sequence length:
 1. mean(X)                          2. mean(abs X)
 3. mean(angle X)                    4. mean(abs (angle X))
 5. mean(X²)                         6. mean((abs X)²)
 7. mean((angle X)²)                 8. mean((abs (angle X))²)
 9. mean(X²) − (1/n²)(sum X)²       10. mean((abs X)²) − (1/n²)(sum (abs X))²
11. mean((angle X)²) − (1/n²)(sum (angle X))²
12. mean((abs (angle X))²) − (1/n²)(sum (abs (angle X)))²
13. mean(X⁴) − (1/n²)(sum X²)²     14. mean((abs X)⁴) − (1/n²)(sum (abs X)²)²
15. mean((angle X)⁴) − (1/n²)(sum (angle X)²)²
16. mean((abs (angle X))⁴) − (1/n²)(sum (abs (angle X))²)². -/
def specStats (X : List ℂ) : List ℝ :=
  [Complex.abs (cmean X),
   |rmean (X.map fun w => Complex.abs w)|,
   |rmean (X.map fun w => Complex.arg w)|,
   |rmean (X.map fun w => |Complex.arg w|)|,
   Complex.abs (cmean (X.map fun w => w ^ 2)),
   |rmean (X.map fun w => Complex.abs w ^ 2)|,
   |rmean (X.map fun w => Complex.arg w ^ 2)|,
   |rmean (X.map fun w => |Complex.arg w| ^ 2)|,
   Complex.abs (cmean (X.map fun w => w ^ 2) -
     1 / (X.length : ℂ) ^ 2 * X.sum ^ 2),
   |rmean (X.map fun w => Complex.abs w ^ 2) -
     1 / (X.length : ℝ) ^ 2 * (X.map fun w => Complex.abs w).sum ^ 2|,
   |rmean (X.map fun w => Complex.arg w ^ 2) -
     1 / (X.length : ℝ) ^ 2 * (X.map fun w => Complex.arg w).sum ^ 2|,
   |rmean (X.map fun w => |Complex.arg w| ^ 2) -
     1 / (X.length : ℝ) ^ 2 * (X.map fun w => |Complex.arg w|).sum ^ 2|,
   Complex.abs (cmean (X.map fun w => w ^ 4) -
     1 / (X.length : ℂ) ^ 2 * (X.map fun w => w ^ 2).sum ^ 2),
   |rmean (X.map fun w => Complex.abs w ^ 4) -
     1 / (X.length : ℝ) ^ 2 * (X.map fun w => Complex.abs w ^ 2).sum ^ 2|,
   |rmean (X.map fun w => Complex.arg w ^ 4) -
     1 / (X.length : ℝ) ^ 2 * (X.map fun w => Complex.arg w ^ 2).sum ^ 2|,
   |rmean (X.map fun w => |Complex.arg w| ^ 4) -
     1 / (X.length : ℝ) ^ 2 * (X.map fun w => |Complex.arg w| ^ 2).sum ^ 2|]

/-- A minimal well-shaped batch: one sample, two channels, length one,
all entries zero. -/
def exBatch : Batch := ⟨1, 2, 1, fun _ _ _ => 0⟩

/-- A batch with three channels (channel dimension not equal to 2): the
third channel carries a nonzero value. -/
def exBatch3 : Batch := ⟨1, 3, 1, fun _ c _ => if c = 2 then 5 else 0⟩

/-! ## Helper lemmas -/

lemma getD_range_map {α : Type} (f : ℕ → α) (n k : ℕ) (d : α) (h : k < n) :
    ((List.range n).map f).getD k d = f k := by
  rw [List.getD_eq_getElem?_getD, List.getElem?_map, List.getElem?_range h]
  rfl

lemma length_X_complex_8lag (T : ℕ) (z : List ℂ) :
    (X_complex_8lag T z).length = z.length := by
  simp [X_complex_8lag]

lemma X_complex_8lag_getD (T : ℕ) (z : List ℂ) (k : ℕ) (h : k < z.length) :
    (X_complex_8lag T z).getD k 0 = z.getD k 0 * z.getD ((k + T) % z.length) 0 := by
  unfold X_complex_8lag
  exact getD_range_map _ _ _ _ h

lemma X_complex_8lag_zero (z : List ℂ) :
    X_complex_8lag 0 z = z.map fun w => w ^ 2 := by
  unfold X_complex_8lag
  apply List.ext_getElem
  · simp
  · intro k h1 h2
    have hk : k < z.length := by simpa using h2
    simp only [List.getElem_map, List.getElem_range]
    rw [Nat.add_zero, Nat.mod_eq_of_lt hk, List.getD_eq_getElem z 0 hk]
    exact (pow_two _).symm

lemma features16_lag0_eq_spec (z : List ℂ) : features16_lag0 z = specStats z := by
  simp [features16_lag0, specStats, f1, f2, f3, f4, f5, f6, f7, f8, f9, f10,
    f11, f12, f13, f14, f15, f16, rmean, cmean, List.map_map, Function.comp_def,
    List.length_map, one_div_mul_eq_div]

lemma features16_lag8_eq_spec (w : List ℂ) : features16_lag8 w = specStats w := by
  simp [features16_lag8, specStats, f17, f18, f19, f20, f21, f22, f23, f24,
    f25, f26, f27, f28, f29, f30, f31, f32, rmean, cmean, List.map_map,
    Function.comp_def, List.length_map, one_div_mul_eq_div, inv_mul_eq_div]

lemma specStats_nonneg (X : List ℂ) : ∀ v ∈ specStats X, 0 ≤ v := by
  intro v hv
  simp only [specStats, List.mem_cons, List.not_mem_nil, or_false] at hv
  rcases hv with rfl | rfl | rfl | rfl | rfl | rfl | rfl | rfl | rfl | rfl |
    rfl | rfl | rfl | rfl | rfl | rfl
  all_goals first
    | exact Complex.abs.nonneg _
    | exact abs_nonneg _

lemma form_features_ok (X : Batch) (hN : X.n_samples ≠ 0) (hL : X.vec_len ≠ 0)
    (hR : 2 ≤ X.rows) :
    form_features X =
      Except.ok ((List.range X.n_samples).map fun n =>
        features16_lag0 (X_complex_lag0 X n)) := by
  have h1 : ¬(X.n_samples = 0 ∨ X.vec_len = 0) := by tauto
  have h2 : ¬(X.rows < 2) := by omega
  simp [form_features, h1, h2]

lemma form_next16_features_ok (X : Batch) (hN : X.n_samples ≠ 0)
    (hL : X.vec_len ≠ 0) (hR : 2 ≤ X.rows) :
    form_next16_features X =
      Except.ok ((List.range X.n_samples).map fun n =>
        features16_lag8 (X_complex_8lag 8 (X_complex_lag8path X n))) := by
  have h1 : ¬(X.n_samples = 0 ∨ X.vec_len = 0) := by tauto
  have h2 : ¬(X.rows < 2) := by omega
  simp [form_next16_features, h1, h2]

lemma form_features_error_iff (X : Batch) :
    (∃ e, form_features X = Except.error e) ↔
      X.n_samples = 0 ∨ X.vec_len = 0 ∨ X.rows < 2 := by
  unfold form_features
  split_ifs with h1 h2 <;> simp <;> omega

lemma form_next16_features_error_iff (X : Batch) :
    (∃ e, form_next16_features X = Except.error e) ↔
      X.n_samples = 0 ∨ X.vec_len = 0 ∨ X.rows < 2 := by
  unfold form_next16_features
  split_ifs with h1 h2 <;> simp <;> omega

lemma X_complex_lag0_eq_lag8path (X : Batch) (n : ℕ) :
    X_complex_lag0 X n = X_complex_lag8path X n := rfl

lemma length_X_complex_lag0 (X : Batch) (n : ℕ) :
    (X_complex_lag0 X n).length = X.vec_len := by
  simp [X_complex_lag0]

lemma X_complex_lag0_getD (X : Batch) (n k : ℕ) (h : k < X.vec_len) :
    (X_complex_lag0 X n).getD k 0 = ⟨X.data n 0 k, X.data n 1 k⟩ := by
  unfold X_complex_lag0
  exact getD_range_map _ _ _ _ h

lemma X_complex_lag0_congr (X Y : Batch) (n : ℕ) (hL : X.vec_len = Y.vec_len)
    (h : ∀ k, k < X.vec_len → X.data n 0 k = Y.data n 0 k ∧ X.data n 1 k = Y.data n 1 k) :
    X_complex_lag0 X n = X_complex_lag0 Y n := by
  unfold X_complex_lag0
  rw [← hL]
  apply List.map_congr_left
  intro k hk
  rw [List.mem_range] at hk
  rw [(h k hk).1, (h k hk).2]

lemma map_pow4_eq (z : List ℂ) :
    (z.map fun w => w ^ 4) = (z.map fun w => w ^ 2).map fun w => w ^ 2 := by
  rw [List.map_map]
  apply List.map_congr_left
  intro a _
  simp [Function.comp_def]
  ring

/-! ## Claim theorems -/

/-- Claim C1: on every batch of shape (N,2,L) with N ≥ 1 and L ≥ 1, the
lag-0 extractor returns, per sample, exactly the 16 statistics of the
section 4.3 table (in the table's order 1..16, each reduced to its
absolute value, complex magnitude for statistics 1, 5, 9, 13) evaluated
on the raw complex sequence z, and the lag-8 extractor returns the same
16 statistics evaluated on the lagged-product sequence w; every entry of
such a row is non-negative. -/
theorem C1_extractors_match_spec_table (X : Batch) (hN : 1 ≤ X.n_samples)
    (hR : X.rows = 2) (hL : 1 ≤ X.vec_len) :
    form_features X = Except.ok ((List.range X.n_samples).map fun n =>
      specStats (X_complex_lag0 X n)) ∧
    form_next16_features X = Except.ok ((List.range X.n_samples).map fun n =>
      specStats (X_complex_8lag 8 (X_complex_lag8path X n))) ∧
    (∀ z : List ℂ, ∀ v ∈ specStats z, 0 ≤ v) := by
  refine ⟨?_, ?_, fun z => specStats_nonneg z⟩
  · rw [form_features_ok X (by omega) (by omega) (by omega)]
    simp only [features16_lag0_eq_spec]
  · rw [form_next16_features_ok X (by omega) (by omega) (by omega)]
    simp only [features16_lag8_eq_spec]

/-- Witness for C1 at the concrete one-sample batch exBatch. -/
theorem C1_witness :
    form_features exBatch = Except.ok ((List.range exBatch.n_samples).map fun n =>
      specStats (X_complex_lag0 exBatch n)) ∧
    form_next16_features exBatch =
      Except.ok ((List.range exBatch.n_samples).map fun n =>
        specStats (X_complex_8lag 8 (X_complex_lag8path exBatch n))) ∧
    (∀ z : List ℂ, ∀ v ∈ specStats z, 0 ≤ v) :=
  C1_extractors_match_spec_table exBatch (by decide) (by decide) (by decide)

/-- Claim C2: for every well-shaped batch, the lag-8 former produces
w[n][k] = z[n][k] · z[n][(k+8) mod L] at every position k < L, the index
being reduced modulo L before use, and the lag-8 extractor never fails
for L ≥ 1 (in particular position L−1 uses the wrapped index
(L−1+8) mod L, the instance k = L−1 of the first conjunct). -/
theorem C2_lag8_former_cyclic (X : Batch) (hN : 1 ≤ X.n_samples)
    (hR : X.rows = 2) (hL : 1 ≤ X.vec_len) :
    (∀ n k, k < X.vec_len →
      (X_complex_8lag 8 (X_complex_lag8path X n)).getD k 0 =
        (X_complex_lag8path X n).getD k 0 *
          (X_complex_lag8path X n).getD ((k + 8) % X.vec_len) 0) ∧
    (∃ rows, form_next16_features X = Except.ok rows) := by
  constructor
  · intro n k hk
    have hlen : (X_complex_lag8path X n).length = X.vec_len := by
      rw [← X_complex_lag0_eq_lag8path, length_X_complex_lag0]
    rw [X_complex_8lag_getD 8 _ k (by rw [hlen]; exact hk), hlen]
  · exact ⟨_, form_next16_features_ok X (by omega) (by omega) (by omega)⟩

/-- Witness for C2 at the concrete one-sample batch exBatch. -/
theorem C2_witness :
    (∀ n k, k < exBatch.vec_len →
      (X_complex_8lag 8 (X_complex_lag8path exBatch n)).getD k 0 =
        (X_complex_lag8path exBatch n).getD k 0 *
          (X_complex_lag8path exBatch n).getD ((k + 8) % exBatch.vec_len) 0) ∧
    (∃ rows, form_next16_features exBatch = Except.ok rows) :=
  C2_lag8_former_cyclic exBatch (by decide) (by decide) (by decide)

/-- Claim C5: the lag-8 block's statistic 15 (feature f31), written in
the notebook as (1/n)·sum(angle(w)⁴) − (1/n²)·(sum(angle(w)²))², is
extensionally equal to the mean-based formulation used by the lag-0
block's f15 (mean(angle(X)⁴) − (1/n²)·(sum(angle(X)²))², the section 4.3
statement of statistic 15), for every complex sequence, so the differing
nesting changes nothing about the computed value. -/
theorem C5_f31_equals_mean_formulation (w : List ℂ) : f31 w = f15 w := by
  simp [f31, f15, rmean, List.length_map, one_div_mul_eq_div, inv_mul_eq_div]

/-- Claim C6: on a batch with channel dimension 2 and at least one
sample, each extractor fails (returns an error, producing no output)
exactly when the per-sample sequence length is 0; for every L ≥ 1 no
failure occurs and the output rows are exactly the absolute values of
the raw statistic formulas, propagated unchanged with no clamping,
replacement or suppression of degenerate values (over the exact-real
model the degenerate values themselves are exact; the absence of any
replacement is witnessed by the output being literally the formulas). -/
theorem C6_fail_iff_length_zero (X : Batch) (hN : 1 ≤ X.n_samples)
    (hR : X.rows = 2) :
    ((∃ e, form_features X = Except.error e) ↔ X.vec_len = 0) ∧
    ((∃ e, form_next16_features X = Except.error e) ↔ X.vec_len = 0) ∧
    (1 ≤ X.vec_len →
      form_features X = Except.ok ((List.range X.n_samples).map fun n =>
        features16_lag0 (X_complex_lag0 X n)) ∧
      form_next16_features X = Except.ok ((List.range X.n_samples).map fun n =>
        features16_lag8 (X_complex_8lag 8 (X_complex_lag8path X n)))) := by
  rw [form_features_error_iff, form_next16_features_error_iff]
  refine ⟨by omega, by omega, fun hL => ⟨?_, ?_⟩⟩
  · exact form_features_ok X (by omega) (by omega) (by omega)
  · exact form_next16_features_ok X (by omega) (by omega) (by omega)

/-- Witness for C6 at the concrete one-sample batch exBatch. -/
theorem C6_witness :
    ((∃ e, form_features exBatch = Except.error e) ↔ exBatch.vec_len = 0) ∧
    ((∃ e, form_next16_features exBatch = Except.error e) ↔ exBatch.vec_len = 0) ∧
    (1 ≤ exBatch.vec_len →
      form_features exBatch = Except.ok ((List.range exBatch.n_samples).map fun n =>
        features16_lag0 (X_complex_lag0 exBatch n)) ∧
      form_next16_features exBatch =
        Except.ok ((List.range exBatch.n_samples).map fun n =>
          features16_lag8 (X_complex_8lag 8 (X_complex_lag8path exBatch n)))) :=
  C6_fail_iff_length_zero exBatch (by decide) (by decide)

/-- Counterexample to C7 as stated: exBatch3 has channel dimension 3
(not exactly 2), yet form_features succeeds on it instead of failing. -/
theorem C7_counterexample :
    exBatch3.rows ≠ 2 ∧ ∃ rows, form_features exBatch3 = Except.ok rows := by
  refine ⟨by decide, ⟨_, form_features_ok exBatch3 ?_ ?_ ?_⟩⟩ <;> decide

/-- Claim C7 as amended: on a batch with N ≥ 1 and L ≥ 1, the extractors
fail exactly when the channel dimension is smaller than 2 (reading
channel index 1 is then out of bounds); a channel dimension larger than
2 is accepted, the extra channels being ignored. -/
theorem C7_amended_fail_iff_rows_lt_two (X : Batch) (hN : 1 ≤ X.n_samples)
    (hL : 1 ≤ X.vec_len) :
    ((∃ e, form_features X = Except.error e) ↔ X.rows < 2) ∧
    ((∃ e, form_next16_features X = Except.error e) ↔ X.rows < 2) := by
  rw [form_features_error_iff, form_next16_features_error_iff]
  exact ⟨by omega, by omega⟩

/-- Witness for the amended C7 at the concrete one-sample batch exBatch. -/
theorem C7_witness :
    ((∃ e, form_features exBatch = Except.error e) ↔ exBatch.rows < 2) ∧
    ((∃ e, form_next16_features exBatch = Except.error e) ↔ exBatch.rows < 2) :=
  C7_amended_fail_iff_rows_lt_two exBatch (by decide) (by decide)

/-- Claim C8: the lagged-product former instantiated at lag T = 0 yields
exactly the elementwise square of the input sequence, for every complex
sequence. -/
theorem C8_lag_zero_is_elementwise_square (z : List ℂ) :
    X_complex_8lag 0 z = z.map fun w => w ^ 2 :=
  X_complex_8lag_zero z

/-- Claim C10: the complex-signal constructions duplicated inside
form_features and form_next16_features are extensionally equal, and both
build, per sample n, the sequence whose entry k is
batch[n,0,k] + i·batch[n,1,k]. -/
theorem C10_builders_extensionally_equal (X : Batch) (n k : ℕ)
    (hk : k < X.vec_len) :
    X_complex_lag0 X n = X_complex_lag8path X n ∧
    (X_complex_lag0 X n).length = X.vec_len ∧
    (X_complex_lag0 X n).getD k 0 =
      (X.data n 0 k : ℂ) + (X.data n 1 k : ℂ) * Complex.I := by
  refine ⟨X_complex_lag0_eq_lag8path X n, length_X_complex_lag0 X n, ?_⟩
  rw [X_complex_lag0_getD X n k hk]
  exact Complex.mk_eq_add_mul_I _ _

/-- Claim C3: on every batch of shape (N,2,L) with N ≥ 1 and L ≥ 1, the
assembled matrix has one row per input sample in input order; row n is
the lag-0 block of sample n followed by the lag-8 block of sample n, so
it has 32 entries, columns 0–15 reading the lag-0 block and columns
16–31 reading the lag-8 block; and a sample's complex sequence — hence
its row — depends only on that sample's own channel-0/channel-1 data. -/
theorem C3_assembler_shape_and_order (X : Batch) (hN : 1 ≤ X.n_samples)
    (hR : X.rows = 2) (hL : 1 ≤ X.vec_len) :
    X_32 X = Except.ok ((List.range X.n_samples).map fun n =>
      features16_lag0 (X_complex_lag0 X n) ++
        features16_lag8 (X_complex_8lag 8 (X_complex_lag8path X n))) ∧
    (∀ rows, X_32 X = Except.ok rows →
      rows.length = X.n_samples ∧
      (∀ r ∈ rows, r.length = 32) ∧
      (∀ n j, n < X.n_samples → j < 16 →
        (rows.getD n []).getD j 0 =
          (features16_lag0 (X_complex_lag0 X n)).getD j 0) ∧
      (∀ n j, n < X.n_samples → 16 ≤ j → j < 32 →
        (rows.getD n []).getD j 0 =
          (features16_lag8 (X_complex_8lag 8 (X_complex_lag8path X n))).getD
            (j - 16) 0)) ∧
    (∀ Y n, X.vec_len = Y.vec_len →
      (∀ k, k < X.vec_len →
        X.data n 0 k = Y.data n 0 k ∧ X.data n 1 k = Y.data n 1 k) →
      X_complex_lag0 X n = X_complex_lag0 Y n) := by
  have e1 := form_features_ok X (by omega) (by omega) (by omega)
  have e2 := form_next16_features_ok X (by omega) (by omega) (by omega)
  have hmain : X_32 X = Except.ok ((List.range X.n_samples).map fun n =>
      features16_lag0 (X_complex_lag0 X n) ++
        features16_lag8 (X_complex_8lag 8 (X_complex_lag8path X n))) := by
    simp only [X_32, e1, e2]
    rw [List.zipWith_map, List.zipWith_same]
  refine ⟨hmain, ?_, ?_⟩
  · intro rows hrows
    rw [hmain] at hrows
    obtain rfl : rows = _ := by simpa using hrows.symm
    refine ⟨by simp, ?_, ?_, ?_⟩
    · intro r hr
      simp only [List.mem_map] at hr
      obtain ⟨n, _, rfl⟩ := hr
      simp [features16_lag0, features16_lag8]
    · intro n j hn hj
      rw [getD_range_map _ _ _ _ hn]
      have hlen : (features16_lag0 (X_complex_lag0 X n)).length = 16 := by
        simp [features16_lag0]
      rw [List.getD_append _ _ _ _ (by rw [hlen]; exact hj)]
    · intro n j hn hj16 hj32
      rw [getD_range_map _ _ _ _ hn]
      have hlen : (features16_lag0 (X_complex_lag0 X n)).length = 16 := by
        simp [features16_lag0]
      rw [List.getD_append_right _ _ _ _ (by rw [hlen]; exact hj16), hlen]
  · intro Y n hVL hdata
    exact X_complex_lag0_congr X Y n hVL hdata

/-- Witness for C3 at the concrete one-sample batch exBatch. -/
theorem C3_witness :
    X_32 exBatch = Except.ok ((List.range exBatch.n_samples).map fun n =>
      features16_lag0 (X_complex_lag0 exBatch n) ++
        features16_lag8 (X_complex_8lag 8 (X_complex_lag8path exBatch n))) ∧
    (∀ rows, X_32 exBatch = Except.ok rows →
      rows.length = exBatch.n_samples ∧
      (∀ r ∈ rows, r.length = 32) ∧
      (∀ n j, n < exBatch.n_samples → j < 16 →
        (rows.getD n []).getD j 0 =
          (features16_lag0 (X_complex_lag0 exBatch n)).getD j 0) ∧
      (∀ n j, n < exBatch.n_samples → 16 ≤ j → j < 32 →
        (rows.getD n []).getD j 0 =
          (features16_lag8 (X_complex_8lag 8 (X_complex_lag8path exBatch n))).getD
            (j - 16) 0)) ∧
    (∀ Y n, exBatch.vec_len = Y.vec_len →
      (∀ k, k < exBatch.vec_len →
        exBatch.data n 0 k = Y.data n 0 k ∧ exBatch.data n 1 k = Y.data n 1 k) →
      X_complex_lag0 exBatch n = X_complex_lag0 Y n) :=
  C3_assembler_shape_and_order exBatch (by decide) (by decide) (by decide)

/-- Claim C4: the lag-0 path computes its block on the raw complex
sequence itself (first conjunct: the extractor's rows are the f1..f16
statistics of the unshifted builder output); its magnitude statistics
f2, f6, f10, f14 depend on the sequence only through the elementwise
magnitudes, its angle statistics f3, f4, f7, f8, f11, f12, f15, f16 only
through the elementwise arguments, and the elementwise square enters
f5 and f13 only through the squared sequence; and the lag-0 block does
not route through the lagged-product former at T = 0, which would give a
different result (last conjunct: a concrete sequence on which the block
of the raw sequence differs from the block of its T = 0 lagged
product). -/
theorem C4_lag0_path_operates_on_raw_sequence :
    (∀ X : Batch, 1 ≤ X.n_samples → X.rows = 2 → 1 ≤ X.vec_len →
      form_features X = Except.ok ((List.range X.n_samples).map fun n =>
        features16_lag0 (X_complex_lag0 X n))) ∧
    (∀ z z' : List ℂ, z.map Complex.abs = z'.map Complex.abs →
      f2 z = f2 z' ∧ f6 z = f6 z' ∧ f10 z = f10 z' ∧ f14 z = f14 z') ∧
    (∀ z z' : List ℂ, z.map Complex.arg = z'.map Complex.arg →
      f3 z = f3 z' ∧ f4 z = f4 z' ∧ f7 z = f7 z' ∧ f8 z = f8 z' ∧
      f11 z = f11 z' ∧ f12 z = f12 z' ∧ f15 z = f15 z' ∧ f16 z = f16 z') ∧
    (∀ z z' : List ℂ, (z.map fun w => w ^ 2) = (z'.map fun w => w ^ 2) →
      f5 z = f5 z' ∧ f13 z = f13 z') ∧
    features16_lag0 [(2 : ℂ), 0] ≠ features16_lag0 (X_complex_8lag 0 [(2 : ℂ), 0]) := by
  refine ⟨?_, ?_, ?_, ?_, ?_⟩
  · intro X hN hR hL
    exact form_features_ok X (by omega) (by omega) (by omega)
  · intro z z' h
    have hlen : z.length = z'.length := by
      have := congrArg List.length h
      simpa using this
    exact ⟨by simp only [f2]; rw [h], by simp only [f6]; rw [h],
      by simp only [f10]; rw [h, hlen], by simp only [f14]; rw [h, hlen]⟩
  · intro z z' h
    have hlen : z.length = z'.length := by
      have := congrArg List.length h
      simpa using this
    exact ⟨by simp only [f3]; rw [h], by simp only [f4]; rw [h],
      by simp only [f7]; rw [h], by simp only [f8]; rw [h],
      by simp only [f11]; rw [h, hlen], by simp only [f12]; rw [h, hlen],
      by simp only [f15]; rw [h, hlen], by simp only [f16]; rw [h, hlen]⟩
  · intro z z' h
    have hlen : z.length = z'.length := by
      have := congrArg List.length h
      simpa using this
    exact ⟨by simp only [f5]; rw [h],
      by simp only [f13, map_pow4_eq]; rw [h, hlen]⟩
  · have hsq : X_complex_8lag 0 [(2 : ℂ), 0] = [(4 : ℂ), 0] := by
      rw [X_complex_8lag_zero]
      norm_num
    rw [hsq]
    intro hEq
    have h0 := congrArg (fun l => l.getD 0 0) hEq
    simp [features16_lag0, f1, cmean] at h0
    norm_num at h0

/-- Witness for C4: the first conjunct at the concrete batch exBatch,
the magnitude and square conjuncts at the pair of sequences with entry 1
and entry −1 (same magnitudes and same squares), the angle conjunct at a
pair of identical sequences. -/
theorem C4_witness :
    form_features exBatch = Except.ok ((List.range exBatch.n_samples).map fun n =>
      features16_lag0 (X_complex_lag0 exBatch n)) ∧
    (f2 [(1 : ℂ)] = f2 [(-1 : ℂ)] ∧ f6 [(1 : ℂ)] = f6 [(-1 : ℂ)] ∧
      f10 [(1 : ℂ)] = f10 [(-1 : ℂ)] ∧ f14 [(1 : ℂ)] = f14 [(-1 : ℂ)]) ∧
    (f3 [(1 : ℂ)] = f3 [(1 : ℂ)] ∧ f4 [(1 : ℂ)] = f4 [(1 : ℂ)] ∧
      f7 [(1 : ℂ)] = f7 [(1 : ℂ)] ∧ f8 [(1 : ℂ)] = f8 [(1 : ℂ)] ∧
      f11 [(1 : ℂ)] = f11 [(1 : ℂ)] ∧ f12 [(1 : ℂ)] = f12 [(1 : ℂ)] ∧
      f15 [(1 : ℂ)] = f15 [(1 : ℂ)] ∧ f16 [(1 : ℂ)] = f16 [(1 : ℂ)]) ∧
    (f5 [(1 : ℂ)] = f5 [(-1 : ℂ)] ∧ f13 [(1 : ℂ)] = f13 [(-1 : ℂ)]) :=
  ⟨C4_lag0_path_operates_on_raw_sequence.1 exBatch (by decide) (by decide) (by decide),
   C4_lag0_path_operates_on_raw_sequence.2.1 [1] [-1] (by simp),
   C4_lag0_path_operates_on_raw_sequence.2.2.1 [1] [1] rfl,
   C4_lag0_path_operates_on_raw_sequence.2.2.2.1 [1] [-1] (by norm_num)⟩

/-- Claim C9: two batches with the same sample count and length whose
channel-0 and channel-1 planes agree elementwise produce identical
outputs from both extractors, even when the batches carry additional
channels (beyond index 1) with differing values: such channels never
influence the result and their presence is not rejected. -/
theorem C9_extra_channels_ignored (X Y : Batch)
    (hN : X.n_samples = Y.n_samples) (hL : X.vec_len = Y.vec_len)
    (hX : 2 ≤ X.rows) (hY : 2 ≤ Y.rows)
    (hdata : ∀ n k, n < X.n_samples → k < X.vec_len →
      X.data n 0 k = Y.data n 0 k ∧ X.data n 1 k = Y.data n 1 k) :
    form_features X = form_features Y ∧
    form_next16_features X = form_next16_features Y := by
  have hmap : ∀ n ∈ List.range X.n_samples,
      X_complex_lag0 X n = X_complex_lag0 Y n := by
    intro n hn
    rw [List.mem_range] at hn
    exact X_complex_lag0_congr X Y n hL (fun k hk => hdata n k hn hk)
  by_cases h0 : X.n_samples = 0 ∨ X.vec_len = 0
  · have h0' : Y.n_samples = 0 ∨ Y.vec_len = 0 := by
      rw [← hN, ← hL]
      exact h0
    constructor
    · unfold form_features
      rw [if_pos h0, if_pos h0']
    · unfold form_next16_features
      rw [if_pos h0, if_pos h0']
  · push_neg at h0
    obtain ⟨hn0, hl0⟩ := h0
    constructor
    · rw [form_features_ok X hn0 hl0 hX,
        form_features_ok Y (by omega) (by omega) hY, ← hN]
      exact congrArg Except.ok
        (List.map_congr_left (fun n hn => by rw [hmap n hn]))
    · rw [form_next16_features_ok X hn0 hl0 hX,
        form_next16_features_ok Y (by omega) (by omega) hY, ← hN]
      refine congrArg Except.ok (List.map_congr_left (fun n hn => ?_))
      rw [← X_complex_lag0_eq_lag8path, ← X_complex_lag0_eq_lag8path, hmap n hn]

/-- Witness for C9: the all-zero two-channel batch exBatch versus the
three-channel batch exBatch3 whose extra channel carries the value 5. -/
theorem C9_witness :
    form_features exBatch = form_features exBatch3 ∧
    form_next16_features exBatch = form_next16_features exBatch3 :=
  C9_extra_channels_ignored exBatch exBatch3 rfl rfl (by decide) (by decide)
    (by
      intro n k _ _
      refine ⟨?_, ?_⟩ <;> norm_num [exBatch, exBatch3])

/-- Witness for C10 at the concrete one-sample batch exBatch, sample 0,
position 0. -/
theorem C10_witness :
    X_complex_lag0 exBatch 0 = X_complex_lag8path exBatch 0 ∧
    (X_complex_lag0 exBatch 0).length = exBatch.vec_len ∧
    (X_complex_lag0 exBatch 0).getD 0 0 =
      (exBatch.data 0 0 0 : ℂ) + (exBatch.data 0 1 0 : ℂ) * Complex.I :=
  C10_builders_extensionally_equal exBatch 0 0 (by decide)

end AMC

end
